import Mathlib

/-!
Verification development for the TaskWeather application
(`src/index.js`, `src/models/Task.js`): an Express app with CRUD over a
single `Task` collection and an on-demand weather lookup against an
external provider.

The embedding below mirrors the JavaScript source: string splitting,
`parseInt`, `Date.UTC` (with its month/day rollover, two-digit-year rule
and time-value range check), the Mongoose schema validation performed on
`save`, the route handlers for `GET /tasks`, `POST /add`,
`POST /delete/:id`, `GET /weather/:taskId` and `GET /health`.
Timestamps are milliseconds since the Unix epoch as integers; the JS
`NaN` / Invalid Date states are represented by `Option`.
-/

namespace TaskWeather

/-! ### JavaScript primitives -/

/-- Split a character list at every occurrence of `sep`; the source only
splits on the single characters `-` and `:`. -/
def splitCharAux (sep : Char) : List Char → List (List Char)
  | [] => [[]]
  | c :: rest =>
      let r := splitCharAux sep rest
      if c = sep then [] :: r
      else
        match r with
        | [] => [[c]]
        | h :: t => (c :: h) :: t

/-- `s.split(sep)` (JS `String.prototype.split` with a one-character
separator): the pieces between occurrences of `sep`, keeping empty
pieces, with `[""]` for the empty string. -/
def jsSplit (s : String) (sep : Char) : List String :=
  (splitCharAux sep s.toList).map (fun l => ⟨l⟩)

/-- Numeric value of a non-empty list of decimal digits. -/
def digitsVal (l : List Char) : Int :=
  l.foldl (fun a c => a * 10 + ((c.toNat : Int) - 48)) 0

/-- The ECMAScript whitespace set trimmed by `parseInt`: WhiteSpace
(tab, VT, FF, space, NBSP, ZWNBSP and the Unicode space separators)
and the line terminators LF, CR, LS, PS. -/
def jsIsWhitespace (c : Char) : Bool :=
  [0x09, 0x0A, 0x0B, 0x0C, 0x0D, 0x20, 0xA0, 0x1680,
   0x2000, 0x2001, 0x2002, 0x2003, 0x2004, 0x2005, 0x2006, 0x2007,
   0x2008, 0x2009, 0x200A, 0x2028, 0x2029, 0x202F, 0x205F, 0x3000,
   0xFEFF].contains c.toNat

/-- Hexadecimal digits as accepted by `parseInt` with radix 16. -/
def isHexDigitJS (c : Char) : Bool :=
  c.isDigit || ('a' ≤ c && c ≤ 'f') || ('A' ≤ c && c ≤ 'F')

/-- Numeric value of one hexadecimal digit. -/
def hexDigitVal (c : Char) : Int :=
  if c.isDigit then (c.toNat : Int) - 48
  else if 'a' ≤ c ∧ c ≤ 'f' then (c.toNat : Int) - 87
  else (c.toNat : Int) - 55

/-- Numeric value of a non-empty list of hexadecimal digits. -/
def hexDigitsVal (l : List Char) : Int :=
  l.foldl (fun a c => a * 16 + hexDigitVal c) 0

/-- JS `parseInt(s)` with no radix argument: trim leading whitespace,
read an optional sign, then either a `0x`/`0X` prefix followed by the
longest run of hexadecimal digits (radix 16, `NaN` when that run is
empty) or the longest run of decimal digits (radix 10), ignoring any
trailing characters; `none` models `NaN` (no digits at all). -/
def parseIntJS (s : String) : Option Int :=
  let chars := s.toList.dropWhile jsIsWhitespace
  let signRest : Int × List Char :=
    match chars with
    | '-' :: r => (-1, r)
    | '+' :: r => (1, r)
    | r => (1, r)
  match signRest.2 with
  | '0' :: x :: rest =>
      if x = 'x' ∨ x = 'X' then
        let digits := rest.takeWhile isHexDigitJS
        if digits.isEmpty then none
        else some (signRest.1 * hexDigitsVal digits)
      else
        let digits := signRest.2.takeWhile Char.isDigit
        if digits.isEmpty then none
        else some (signRest.1 * digitsVal digits)
  | _ =>
      let digits := signRest.2.takeWhile Char.isDigit
      if digits.isEmpty then none
      else some (signRest.1 * digitsVal digits)

/-- `parseInt(parts[i])` where the index may be out of range:
`parseInt(undefined)` is `NaN`. -/
def parseIntAt (parts : List String) (i : Nat) : Option Int :=
  (parts.get? i).bind parseIntJS

/-- `parseInt(parts[i] || 0)`: an absent or empty entry is replaced by the
number `0` before parsing, so the result is `0` rather than `NaN`. -/
def parseIntAtOrZero (parts : List String) (i : Nat) : Option Int :=
  match parts.get? i with
  | none => some 0
  | some s => if s = "" then some 0 else parseIntJS s

/-! ### Calendar arithmetic (ECMA `Date.UTC`)

`civilBase y m + d` is the number of days from 1970-01-01 to the civil
date `y-m-d` (month `1..12`), the standard days-from-civil computation;
`d` enters linearly, which is exactly how ECMAScript `MakeDay` treats an
out-of-range day-of-month (rollover). -/

/-- Days from the epoch to day 0 of month `m` of year `y` (so that
`civilBase y m + d` is the epoch day of `y-m-d`); `m` must be in
`1..12`. -/
def civilBase (y m : Int) : Int :=
  let y' := if m ≤ 2 then y - 1 else y
  let era := y' / 400
  let yoe := y' - era * 400
  let mp := (m + 9) % 12
  let doy := (153 * mp + 2) / 5
  era * 146097 + yoe * 365 + yoe / 4 - yoe / 100 + doy - 719469

/-- Epoch day number of the civil date `y-m-d` (proleptic Gregorian,
`m` in `1..12`). -/
def civilDays (y m d : Int) : Int := civilBase y m + d

/-- `Date.UTC(y, mo, d, h, mi)` on numeric arguments: two-digit years map
to `1900 + y`, the month is normalized by floor-division/mod 12 with the
year carrying the overflow, the day and time components enter linearly
(rollover), and a result outside the representable ECMAScript time-value
range of `8.64e15` milliseconds is an invalid time value (`none`). -/
def jsDateUTCVal (y mo d h mi : Int) : Option Int :=
  let yy := if 0 ≤ y ∧ y ≤ 99 then y + 1900 else y
  let ym := yy + mo / 12
  let mn := mo % 12
  let t := (civilBase ym (mn + 1) + d) * 86400000 + h * 3600000 + mi * 60000
  if t.natAbs ≤ 8640000000000000 then some t else none

/-- `Date.UTC` lifted over possibly-`NaN` arguments: any `NaN` input makes
the result `NaN` (an Invalid Date). -/
def jsDateUTC (y mo d h mi : Option Int) : Option Int :=
  match y, mo, d, h, mi with
  | some y, some mo, some d, some h, some mi => jsDateUTCVal y mo d h mi
  | _, _, _, _, _ => none

/-! ### The Task model (`src/models/Task.js`)

A Mongoose document for the `taskSchema`. `taskDate` is `Option Int`
because the JS `Date` handed to the schema may be an Invalid Date
(`none` models a `NaN` time value); `save` rejects such a document. -/

/-- A `Task` document as built by the application (before or after
`save`). `state` and `taskTime` are the optional schema paths. -/
structure TaskDoc where
  id : String
  activity : String
  city : String
  state : String
  country : String
  taskDate : Option Int
  taskTime : Option String
  deriving Repr, DecidableEq

/-- Mongoose `save`-time validation of `taskSchema`: the `required`
paths `activity`, `city`, `country` must be present and non-empty
(the `required` validator fails on the empty string), and `taskDate`
must cast to a valid date (an Invalid Date raises a cast error inside
the `ValidationError`). -/
def mongooseValid (t : TaskDoc) : Bool :=
  t.activity ≠ "" && t.city ≠ "" && t.country ≠ "" && t.taskDate.isSome

/-! ### `POST /add` (`src/index.js` lines 66–113) -/

/-- The request body of `POST /add`. `taskTime` is `none` when the field
is absent; the JS truthiness test `if (req.body.taskTime)` also treats
the empty string as absent. -/
structure CreateInput where
  activity : String
  city : String
  state : String
  country : String
  taskDate : String
  taskTime : Option String
  deriving Repr, DecidableEq

/-- JS truthiness of an optional string: `undefined`/`null` and `""` are
falsy. -/
def truthyStr : Option String → Option String
  | none => none
  | some s => if s = "" then none else some s

/-- Lines 72–92 of `POST /add`: split the date on `-`, `parseInt` the
parts (month made 0-indexed), and build the `Date` via `Date.UTC`,
with the time parts when `req.body.taskTime` is truthy and at midnight
otherwise. `none` is an Invalid Date. -/
def parseTaskDate (taskDate : String) (taskTime : Option String) : Option Int :=
  let dateParts := jsSplit taskDate '-'
  let year := parseIntAt dateParts 0
  let month := (parseIntAt dateParts 1).map (· - 1)
  let day := parseIntAt dateParts 2
  match truthyStr taskTime with
  | some t =>
      let timeParts := jsSplit t ':'
      let hours := parseIntAt timeParts 0
      let minutes := parseIntAtOrZero timeParts 1
      jsDateUTC year month day hours minutes
  | none => jsDateUTC year month day (some 0) (some 0)

/-- Outcome of the `POST /add` handler, as distinguished by §7's
taxonomy: success redirects to `/tasks`; a `save` rejection
(`ValidationError`) and a disconnected store both land in the `catch`
and render the add page with an error. -/
inductive CreateOutcome where
  | created (t : TaskDoc)
  | validationError
  | storeUnavailable
  deriving Repr, DecidableEq

/-- The new document of lines 94–101: `taskTime` is stored as
`req.body.taskTime || null`, so an empty string becomes `null`. -/
def newTaskDoc (freshId : String) (input : CreateInput) : TaskDoc :=
  { id := freshId
    activity := input.activity
    city := input.city
    state := input.state
    country := input.country
    taskDate := parseTaskDate input.taskDate input.taskTime
    taskTime := truthyStr input.taskTime }

/-- The `POST /add` handler: fail fast when the store is disconnected,
build the document, `save` it (Mongoose validation), and append it to
the store on success. Returns the store after the request and the
outcome. -/
def postAdd (connected : Bool) (freshId : String) (input : CreateInput)
    (store : List TaskDoc) : List TaskDoc × CreateOutcome :=
  if !connected then (store, .storeUnavailable)
  else
    let t := newTaskDoc freshId input
    if mongooseValid t then (store ++ [t], .created t)
    else (store, .validationError)

/-! ### `GET /tasks` (lines 36–56) and `POST /delete/:id` (lines 115–127) -/

/-- Sort key used by `Task.find().sort(\x7b taskDate: 1 \x7d)`: ascending by
the stored date. -/
def taskDateLe (a b : TaskDoc) : Prop := a.taskDate.getD 0 ≤ b.taskDate.getD 0

instance : DecidableRel taskDateLe := fun a b => by
  unfold taskDateLe; infer_instance

/-- `Task.find().sort(\x7b taskDate: 1 \x7d)`: all stored tasks, stably
sorted by `taskDate` ascending. -/
def findAllSorted (store : List TaskDoc) : List TaskDoc :=
  List.insertionSort taskDateLe store

/-- The `GET /tasks` handler: when connected, the sorted tasks and no
error; when disconnected the `catch` renders an empty list together with
the fixed degraded-mode message. The handler never re-raises. -/
def getTasks (connected : Bool) (store : List TaskDoc) :
    List TaskDoc × Option String :=
  if connected then (findAllSorted store, none)
  else ([], some "Database connection failed. Please try again later.")

/-- `Task.findById`: the stored document with the given id, if any. -/
def findById (store : List TaskDoc) (id : String) : Option TaskDoc :=
  store.find? (fun t => t.id = id)

/-- Where `POST /delete/:id` sends the client afterwards. -/
inductive DeleteOutcome where
  | redirectTasks
  | redirectTasksDbError
  deriving Repr, DecidableEq

/-- The `POST /delete/:id` handler: when disconnected, redirect with the
database-error query; otherwise `findByIdAndDelete` (a no-op when the id
is absent) and redirect to `/tasks`. The `catch` also redirects to
`/tasks`, so the handler never throws to the caller. -/
def postDelete (connected : Bool) (store : List TaskDoc) (id : String) :
    List TaskDoc × DeleteOutcome :=
  if !connected then (store, .redirectTasksDbError)
  else (store.filter (fun t => t.id ≠ id), .redirectTasks)

/-! ### `GET /health` (lines 223–234) -/

/-- The health response body (the fields the claims constrain) together
with the HTTP status. -/
structure HealthResponse where
  httpStatus : Nat
  status : String
  database : String
  deriving Repr, DecidableEq

/-- The `GET /health` handler: always HTTP 200 with `status: 'healthy'`;
connectivity shows up only in the `database` field. -/
def getHealth (connected : Bool) : HealthResponse :=
  { httpStatus := 200
    status := "healthy"
    database := if connected then "connected" else "disconnected" }

/-! ### `GET /weather/:taskId` (lines 129–221) -/

/-- The fields of the provider's JSON body that the handler reads
(`main.temp`, `main.feels_like`, `main.humidity`,
`weather[0].description`, `weather[0].icon`, `wind.speed`,
`clouds.all`, `name`). Temperatures and wind speed are numeric
(modelled as rationals). -/
structure WeatherPayload where
  name : String
  mainTemp : ℚ
  mainFeelsLike : ℚ
  mainHumidity : Int
  weatherDescription : String
  weatherIcon : String
  windSpeed : ℚ
  cloudsAll : Int
  deriving DecidableEq

/-- JS `Math.round`: nearest integer, ties toward positive infinity,
i.e. `⌊x + 1/2⌋`. -/
def jsMathRound (q : ℚ) : Int := ⌊q + 1 / 2⌋

/-- The axios error object as inspected by the `catch` block: its
`message` (raw upstream/driver text), `code`, `name`, the status of a
received error response if any, and whether a request object exists
(request sent but no response). -/
structure AxiosError where
  message : String
  code : Option String
  name : String
  responseStatus : Option Int
  hasRequest : Bool
  deriving Repr, DecidableEq

/-- Lines 198–214: the user-facing error message chosen by the `catch`
block from the shape of the error, never from `error.message`. -/
def weatherErrorMessage (e : AxiosError) : String :=
  if e.code = some "ECONNABORTED" ∨ e.name = "AbortError" then
    "Weather request timed out. Please try again."
  else
    match e.responseStatus with
    | some s =>
        if s = 404 then "Location not found. Please check the city and country."
        else if s = 401 then "Weather service authentication failed."
        else if s = 429 then "Too many weather requests. Please wait a moment."
        else "Weather service error: " ++ toString s
    | none =>
        if e.hasRequest then
          "No response from weather service. Please check your connection."
        else "Could not fetch weather data for this location"

/-- The display projection of the task inside the weather view
(lines 181–191). -/
structure TaskView where
  activity : String
  date : String
  time : String
  location : String
  deriving Repr, DecidableEq

/-- The success body of lines 171–192 (minus the `success` flag, carried
by the HTTP wrapper below). -/
structure WeatherView where
  location : String
  temp : Int
  feelsLike : Int
  humidity : Int
  description : String
  icon : String
  wind : ℚ
  clouds : Int
  task : TaskView
  deriving DecidableEq

/-- Three-letter English weekday names, Sunday first. -/
def weekdayShort : List String :=
  ["Sun", "Mon", "Tue", "Wed", "Thu", "Fri", "Sat"]

/-- Three-letter English month names. -/
def monthShort : List String :=
  ["Jan", "Feb", "Mar", "Apr", "May", "Jun",
   "Jul", "Aug", "Sep", "Oct", "Nov", "Dec"]

/-- Civil date `(y, m, d)` of an epoch day number (inverse of
`civilDays`). -/
def civilFromDays (z0 : Int) : Int × Int × Int :=
  let z := z0 + 719468
  let era := z / 146097
  let doe := z - era * 146097
  let yoe := (doe - doe / 1460 + doe / 36524 - doe / 146096) / 365
  let y := yoe + era * 400
  let doy := doe - (365 * yoe + yoe / 4 - yoe / 100)
  let mp := (5 * doy + 2) / 153
  let d := doy - (153 * mp + 2) / 5 + 1
  let m := mp + if mp < 10 then 3 else -9
  (y + (if m ≤ 2 then 1 else 0), m, d)

/-- `toLocaleDateString('en-US', \x7b weekday: 'short', year: 'numeric',
month: 'short', day: 'numeric' \x7d)` of a millisecond timestamp, for a
process running in UTC: e.g. `"Thu, Jan 1, 1970"`. -/
def formatDateEnUS (t : Int) : String :=
  let days := t / 86400000
  let wd := ((days % 7 + 4) % 7).toNat
  let ymd := civilFromDays days
  (weekdayShort.getD wd "") ++ ", " ++
    (monthShort.getD (ymd.2.1 - 1).toNat "") ++ " " ++
    toString ymd.2.2 ++ ", " ++ toString ymd.1

/-- The weather view built from a provider payload and the task
(lines 171–192): rounded temperatures, the icon URL template, the
pass-through fields, and the task projection with `taskTime || 'All
day'` and the `city[, state], country` template literal. -/
def buildWeatherView (p : WeatherPayload) (t : TaskDoc) : WeatherView :=
  { location := p.name
    temp := jsMathRound p.mainTemp
    feelsLike := jsMathRound p.mainFeelsLike
    humidity := p.mainHumidity
    description := p.weatherDescription
    icon := "https://openweathermap.org/img/wn/" ++ p.weatherIcon ++ "@2x.png"
    wind := p.windSpeed
    clouds := p.cloudsAll
    task :=
      { activity := t.activity
        date := formatDateEnUS (t.taskDate.getD 0)
        time := match t.taskTime with
                | none => "All day"
                | some s => if s = "" then "All day" else s
        location := t.city ++ (if t.state ≠ "" then ", " ++ t.state else "")
            ++ ", " ++ t.country } }

/-- What `res.json` sends back from the weather route: always an HTTP
status (200 for `res.json` with no explicit status), a `success` flag,
and either an error message or the view. -/
structure WeatherHttpResponse where
  httpStatus : Nat
  success : Bool
  error : Option String
  view : Option WeatherView
  deriving DecidableEq

/-- Outcome of the single outbound `axios.get`. -/
inductive NetResult where
  | ok (p : WeatherPayload)
  | fail (e : AxiosError)
  deriving DecidableEq

/-- The `GET /weather/:taskId` handler. `net` is the behaviour of the
external provider for this request; the returned `Bool` records whether
the outbound HTTP request was actually issued. Mirrors lines 129–221:
disconnected store, missing task and missing `OPENWEATHER_API_KEY` all
short-circuit with a `success: false` JSON body before the request. -/
def getWeather (connected : Bool) (store : List TaskDoc) (taskId : String)
    (apiKey : Option String) (net : NetResult) :
    WeatherHttpResponse × Bool :=
  if !connected then
    (⟨200, false, some "Database not available", none⟩, false)
  else
    match findById store taskId with
    | none => (⟨200, false, some "Task not found", none⟩, false)
    | some task =>
        match apiKey with
        | none =>
            (⟨200, false, some "Weather service configuration error", none⟩,
              false)
        | some _ =>
            match net with
            | .ok p => (⟨200, true, none, some (buildWeatherView p task)⟩, true)
            | .fail e => (⟨200, false, some (weatherErrorMessage e), none⟩, true)

/-! ### The spec's failure taxonomy (§4.2), for the refinement claims -/

/-- The §4.2 failure kinds of a weather lookup, as classified from the
error shape: timeout/abort, the three distinguished upstream statuses,
any other upstream status, no response received, and any other error. -/
inductive WeatherFailKind where
  | timeout
  | locationNotFound
  | authFailed
  | rateLimited
  | serviceError (status : Int)
  | noResponse
  | otherFailure
  deriving Repr, DecidableEq

/-- Classify an error into its §4.2 kind (timeout takes precedence, then
a received response by status, then request-without-response). -/
def weatherFailKind (e : AxiosError) : WeatherFailKind :=
  if e.code = some "ECONNABORTED" ∨ e.name = "AbortError" then .timeout
  else
    match e.responseStatus with
    | some s =>
        if s = 404 then .locationNotFound
        else if s = 401 then .authFailed
        else if s = 429 then .rateLimited
        else .serviceError s
    | none => if e.hasRequest then .noResponse else .otherFailure

/-- The fixed reason string for each failure kind: the §4.2 table as the
source realises it. -/
def reasonText : WeatherFailKind → String
  | .timeout => "Weather request timed out. Please try again."
  | .locationNotFound => "Location not found. Please check the city and country."
  | .authFailed => "Weather service authentication failed."
  | .rateLimited => "Too many weather requests. Please wait a moment."
  | .serviceError s => "Weather service error: " ++ toString s
  | .noResponse => "No response from weather service. Please check your connection."
  | .otherFailure => "Could not fetch weather data for this location"

/-! ### Spec-side definitions used by the refinement claims -/

/-- Written from the spec's words for C2: the UTC instant corresponding
to calendar date `y-m-d` at time `h:mi` — epoch days of the civil date
at millisecond resolution, plus the time of day. -/
def specUTCInstant (y m d h mi : Int) : Int :=
  civilDays y m d * 86400000 + h * 3600000 + mi * 60000

/-- Number of days in month `m` of year `y` (Gregorian). -/
def daysInMonth (y m : Int) : Int :=
  if m = 2 then (if y % 4 = 0 ∧ (y % 100 ≠ 0 ∨ y % 400 = 0) then 29 else 28)
  else if m = 4 ∨ m = 6 ∨ m = 9 ∨ m = 11 then 30
  else 31

/-- Join a list of strings with comma-space separators. -/
def joinComma : List String → String
  | [] => ""
  | [s] => s
  | s :: rest => s ++ ", " ++ joinComma rest

/-- Written from the words of the spec for C6: the composed location
string — city, optional state, and country joined with commas. -/
def specJoinLocation (city state country : String) : String :=
  joinComma ([city] ++ (if state = "" then [] else [state]) ++ [country])

/-! ### Concrete fixtures used by the witness theorems -/

/-- A stored task with every field populated. -/
def sampleTask : TaskDoc :=
  { id := "t1", activity := "Hiking", city := "Boston", state := "MA",
    country := "US", taskDate := some 1710510600000,
    taskTime := some "14:30" }

/-- An upstream failure: a 500 response, with driver-level text in
`message`. -/
def sampleError : AxiosError :=
  { message := "Request failed with status code 500", code := none,
    name := "AxiosError", responseStatus := some 500, hasRequest := true }

/-- A create request whose date string is numeric but denotes an
impossible calendar date. -/
def rolloverInput : CreateInput :=
  { activity := "Hiking", city := "Boston", state := "", country := "US",
    taskDate := "2024-13-40", taskTime := none }

/-- A create request whose date string has a non-numeric month
component. -/
def unparsableInput : CreateInput :=
  { activity := "Hiking", city := "Boston", state := "", country := "US",
    taskDate := "2024-ab-05", taskTime := none }

/-- A well-formed create request: a 4-digit-year date and an `HH:MM`
time. -/
def validInput : CreateInput :=
  { activity := "Hiking", city := "Boston", state := "MA", country := "US",
    taskDate := "2024-03-15", taskTime := some "14:30" }

/-- A create request whose well-formed date string has a year component
in the 0000–0099 range. -/
def y2kInput : CreateInput :=
  { activity := "Hiking", city := "Boston", state := "", country := "US",
    taskDate := "0099-01-01", taskTime := none }

/-- The invariant of §3 over the persisted store: required text fields
are non-empty and the stored date is a valid instant. -/
def storeInv (store : List TaskDoc) : Prop :=
  ∀ t ∈ store, t.activity ≠ "" ∧ t.city ≠ "" ∧ t.country ≠ "" ∧
    t.taskDate.isSome = true

instance : IsTotal TaskDoc taskDateLe :=
  ⟨fun a b => le_total (a.taskDate.getD 0) (b.taskDate.getD 0)⟩

instance : IsTrans TaskDoc taskDateLe :=
  ⟨fun _ _ _ h1 h2 => le_trans h1 h2⟩

/-! ## Helper lemmas -/

lemma jsDateUTC_none (y mo d h mi : Option Int)
    (hn : y = none ∨ mo = none ∨ d = none ∨ h = none ∨ mi = none) :
    jsDateUTC y mo d h mi = none := by
  cases y <;> cases mo <;> cases d <;> cases h <;> cases mi <;>
    simp_all [jsDateUTC]

lemma daysInMonth_le (y m : Int) : daysInMonth y m ≤ 31 := by
  unfold daysInMonth
  split_ifs <;> omega

lemma civilBase_bound (y m : Int) (hyl : 100 ≤ y) (hyu : y ≤ 9999)
    (hml : 1 ≤ m) (hmu : m ≤ 12) :
    -720000 ≤ civilBase y m ∧ civilBase y m ≤ 3000000 := by
  dsimp only [civilBase]
  split_ifs with h <;> omega

lemma jsDateUTCVal_eq_spec (y m d hh mi : Int) (hyl : 100 ≤ y)
    (hyu : y ≤ 9999) (hml : 1 ≤ m) (hmu : m ≤ 12) (hdl : 1 ≤ d)
    (hdu : d ≤ 31) (hhl : 0 ≤ hh) (hhu : hh ≤ 23) (hmil : 0 ≤ mi)
    (hmiu : mi ≤ 59) :
    jsDateUTCVal y (m - 1) d hh mi = some (specUTCInstant y m d hh mi) := by
  obtain ⟨hbl, hbu⟩ := civilBase_bound y m hyl hyu hml hmu
  have h99 : ¬(0 ≤ y ∧ y ≤ 99) := by omega
  have hdiv : (m - 1) / 12 = 0 := by omega
  have hmod : (m - 1) % 12 = m - 1 := by omega
  have hm1 : m - 1 + 1 = m := by ring
  have hrange : ((civilBase y m + d) * 86400000 + hh * 3600000 +
      mi * 60000).natAbs ≤ 8640000000000000 := by omega
  dsimp only [jsDateUTCVal]
  rw [if_neg h99, hdiv, hmod, add_zero, hm1, if_pos hrange]
  rfl

lemma weatherErrorMessage_eq_reasonText (e : AxiosError) :
    weatherErrorMessage e = reasonText (weatherFailKind e) := by
  rcases e with ⟨msg, code, nm, rs, hr⟩
  unfold weatherErrorMessage weatherFailKind
  cases rs <;> dsimp only <;> split_ifs <;> rfl

lemma jsMathRound_abs (q : ℚ) : |((jsMathRound q : ℤ) : ℚ) - q| ≤ 1 / 2 := by
  unfold jsMathRound
  rw [abs_le]
  constructor
  · have h := Int.lt_floor_add_one (q + 1 / 2)
    push_cast at h ⊢
    linarith
  · have h := Int.floor_le (q + 1 / 2)
    push_cast at h ⊢
    linarith

/-! ## The claims -/

/-- C5: with the store connected, `GET /tasks` returns exactly the stored
tasks (a permutation of the store) ordered by `taskDate` ascending with
no error, and an empty store yields the empty sequence, not an error. -/
theorem getTasks_sorted_and_complete (store : List TaskDoc) :
    (getTasks true store).1.Perm store ∧
    List.Sorted taskDateLe (getTasks true store).1 ∧
    (getTasks true store).2 = none ∧
    getTasks true [] = ([], none) := by
  refine ⟨?_, ?_, rfl, rfl⟩
  · exact List.perm_insertionSort taskDateLe store
  · exact List.sorted_insertionSort taskDateLe store

/-- C7: with the store disconnected, `GET /tasks` returns the empty task
list together with the fixed degraded-mode error message; being a total
function of the state, it raises nothing to the caller. -/
theorem getTasks_degraded_when_disconnected (store : List TaskDoc) :
    getTasks false store =
      ([], some "Database connection failed. Please try again later.") := rfl

/-- C8: `POST /delete/:id` on a connected store always answers with the
success redirect to `/tasks`, whether or not the id is present, and
deleting the same id again leaves both the store and the response
unchanged (idempotence). -/
theorem postDelete_idempotent_success (store : List TaskDoc) (id : String) :
    (postDelete true store id).2 = .redirectTasks ∧
    postDelete true (postDelete true store id).1 id =
      postDelete true store id := by
  refine ⟨rfl, ?_⟩
  simp [postDelete, List.filter_filter]

/-- C10: `GET /health` always answers HTTP 200 with the constant status
text `healthy`; store connectivity is reported only through the
`database` field. -/
theorem getHealth_always_healthy (connected : Bool) :
    (getHealth connected).httpStatus = 200 ∧
    (getHealth connected).status = "healthy" ∧
    (getHealth connected).database =
      (if connected then "connected" else "disconnected") :=
  ⟨rfl, rfl, rfl⟩

/-- C4: a weather lookup whose task id resolves to no stored task answers
with the distinct `Task not found` body without issuing the outbound
request, and a lookup with no provider credential answers with the
`Weather service configuration error` body, also without issuing the
request (the returned flag records whether the request was issued). -/
theorem getWeather_shortcircuits (store : List TaskDoc) (taskId : String)
    (apiKey : Option String) (net : NetResult) :
    (findById store taskId = none →
      getWeather true store taskId apiKey net =
        (⟨200, false, some "Task not found", none⟩, false)) ∧
    (∀ task, findById store taskId = some task →
      getWeather true store taskId none net =
        (⟨200, false, some "Weather service configuration error", none⟩,
          false)) := by
  constructor
  · intro h
    simp [getWeather, h]
  · intro task h
    simp [getWeather, h]

/-- Witness for C4 at concrete inputs: an empty store, and a one-task
store with the credential absent. -/
theorem getWeather_shortcircuits_witness :
    getWeather true [] "t1" (some "k") (.fail sampleError) =
      (⟨200, false, some "Task not found", none⟩, false) ∧
    getWeather true [sampleTask] "t1" none (.fail sampleError) =
      (⟨200, false, some "Weather service configuration error", none⟩,
        false) :=
  ⟨(getWeather_shortcircuits [] "t1" (some "k") (.fail sampleError)).1 rfl,
   (getWeather_shortcircuits [sampleTask] "t1" none
      (.fail sampleError)).2 sampleTask rfl⟩

/-- C3: when the outbound weather request fails, the route answers HTTP
200 with `success: false` and an error message that is the fixed reason
text of the failure kind; the message never depends on the raw upstream
error text (`message` field). -/
theorem getWeather_failure_taxonomy (store : List TaskDoc) (taskId : String)
    (task : TaskDoc) (key : String) (e : AxiosError)
    (hfind : findById store taskId = some task) :
    getWeather true store taskId (some key) (.fail e) =
      (⟨200, false, some (reasonText (weatherFailKind e)), none⟩, true) ∧
    (∀ m, weatherErrorMessage { e with message := m } =
      weatherErrorMessage e) := by
  constructor
  · simp [getWeather, hfind, weatherErrorMessage_eq_reasonText]
  · intro m
    rfl

/-- Witness for C3: a one-task store and a concrete upstream 500
failure. -/
theorem getWeather_failure_taxonomy_witness :
    getWeather true [sampleTask] "t1" (some "k") (.fail sampleError) =
      (⟨200, false, some (reasonText (weatherFailKind sampleError)), none⟩,
        true) ∧
    (∀ m, weatherErrorMessage { sampleError with message := m } =
      weatherErrorMessage sampleError) :=
  getWeather_failure_taxonomy [sampleTask] "t1" sampleTask "k"
    sampleError rfl

/-- C6: a successful weather lookup produces a view whose `temp` and
`feels_like` are within half a degree of the upstream values (nearest
whole degree), whose icon is the fully-qualified provider icon URL,
whose humidity, wind and clouds pass through unchanged, and whose task
projection shows the stored time of day (the literal `All day` when
there is none) and the comma-joined city, optional state, and country. -/
theorem getWeather_view_fields (p : WeatherPayload) (t : TaskDoc) :
    |(((buildWeatherView p t).temp : ℤ) : ℚ) - p.mainTemp| ≤ 1 / 2 ∧
    |(((buildWeatherView p t).feelsLike : ℤ) : ℚ) - p.mainFeelsLike| ≤ 1 / 2 ∧
    (buildWeatherView p t).icon =
      "https://openweathermap.org/img/wn/" ++ p.weatherIcon ++ "@2x.png" ∧
    (buildWeatherView p t).humidity = p.mainHumidity ∧
    (buildWeatherView p t).wind = p.windSpeed ∧
    (buildWeatherView p t).clouds = p.cloudsAll ∧
    (buildWeatherView p t).task.time =
      (match truthyStr t.taskTime with
        | none => "All day"
        | some s => s) ∧
    (buildWeatherView p t).task.location =
      specJoinLocation t.city t.state t.country := by
  refine ⟨jsMathRound_abs p.mainTemp, jsMathRound_abs p.mainFeelsLike,
    rfl, rfl, rfl, rfl, ?_, ?_⟩
  · show (match t.taskTime with
      | none => "All day"
      | some s => if s = "" then "All day" else s) = _
    cases h : t.taskTime with
    | none => rfl
    | some s =>
        by_cases hs : s = "" <;> simp [truthyStr, hs]
  · show t.city ++ (if t.state ≠ "" then ", " ++ t.state else "")
        ++ ", " ++ t.country = _
    unfold specJoinLocation
    by_cases hs : t.state = "" <;>
      simp [hs, joinComma, String.append_assoc]

/-- C9: the §3 invariant over the persisted store — `activity`, `city`
and `country` non-empty and `taskDate` a valid instant — is preserved by
both writers: `POST /add` (Mongoose validation guards every insert) and
`POST /delete/:id`. No update operation exists in the source. -/
theorem storeInv_preserved (connected : Bool) (freshId : String)
    (input : CreateInput) (store : List TaskDoc) (id : String)
    (hinv : storeInv store) :
    storeInv (postAdd connected freshId input store).1 ∧
    storeInv (postDelete connected store id).1 := by
  constructor
  · cases connected
    · simpa [postAdd] using hinv
    · by_cases hv : mongooseValid (newTaskDoc freshId input) = true
      · simp only [postAdd, Bool.not_true, if_false, hv, if_true,
          Bool.false_eq_true]
        intro t ht
        rcases List.mem_append.mp ht with h | h
        · exact hinv t h
        · have heq : t = newTaskDoc freshId input := List.mem_singleton.mp h
          subst heq
          simp only [mongooseValid, Bool.and_eq_true, decide_eq_true_eq]
            at hv
          exact ⟨hv.1.1.1, hv.1.1.2, hv.1.2, hv.2⟩
      · simp only [postAdd, Bool.not_true, if_false, hv, if_true,
          Bool.false_eq_true]
        simpa using hinv
  · cases connected
    · simpa [postDelete] using hinv
    · intro t ht
      have hmem : t ∈ store := by
        have h2 : (postDelete true store id).1 =
            store.filter (fun x => x.id ≠ id) := rfl
        rw [h2] at ht
        exact List.mem_of_mem_filter ht
      exact hinv t hmem

/-- Witness for C9: the empty store with a valid create request and a
delete of an absent id. -/
theorem storeInv_preserved_witness :
    storeInv (postAdd true "t9" validInput []).1 ∧
    storeInv (postDelete true [] "t9").1 :=
  storeInv_preserved true "t9" validInput [] "t9" (by simp [storeInv])

/-- C1 counterexample: the impossible calendar date `2024-13-40` does
not fail creation — `Date.UTC` rolls it over to 2025-02-09 UTC
(`1739059200000` ms) and the record is persisted, so the store is not
unchanged and no `ValidationError` occurs. -/
theorem postAdd_rollover_persists :
    (postAdd true "t1" rolloverInput []).2 =
      .created (newTaskDoc "t1" rolloverInput) ∧
    (postAdd true "t1" rolloverInput []).1 =
      [newTaskDoc "t1" rolloverInput] ∧
    (newTaskDoc "t1" rolloverInput).taskDate = some 1739059200000 := by
  decide

/-- C1 (amended): create fails — leaving the store unchanged — whenever
some component of the date string fails to parse as a number (the `NaN`
component makes the `Date` invalid and `save` rejects the document);
numeric components denoting an impossible calendar date are instead
normalized by rollover and the record is persisted. -/
theorem postAdd_unparsable_date_rejected (freshId : String)
    (input : CreateInput) (store : List TaskDoc)
    (h : parseIntAt (jsSplit input.taskDate '-') 0 = none ∨
      parseIntAt (jsSplit input.taskDate '-') 1 = none ∨
      parseIntAt (jsSplit input.taskDate '-') 2 = none) :
    postAdd true freshId input store = (store, .validationError) := by
  have hdate : parseTaskDate input.taskDate input.taskTime = none := by
    unfold parseTaskDate
    cases htt : truthyStr input.taskTime with
    | none =>
        dsimp only
        apply jsDateUTC_none
        rcases h with h | h | h
        · exact Or.inl h
        · exact Or.inr (Or.inl (by simp [h]))
        · exact Or.inr (Or.inr (Or.inl h))
    | some ts =>
        dsimp only
        apply jsDateUTC_none
        rcases h with h | h | h
        · exact Or.inl h
        · exact Or.inr (Or.inl (by simp [h]))
        · exact Or.inr (Or.inr (Or.inl h))
  have hv : mongooseValid (newTaskDoc freshId input) = false := by
    simp [mongooseValid, newTaskDoc, hdate]
  simp [postAdd, hv]

/-- Witness for the amended C1: a date whose month component is not a
number is rejected and nothing is stored. -/
theorem postAdd_unparsable_date_rejected_witness :
    postAdd true "t2" unparsableInput [] = ([], .validationError) :=
  postAdd_unparsable_date_rejected "t2" unparsableInput []
    (Or.inr (Or.inl (by decide)))

/-- C2 counterexample: the well-formed `YYYY-MM-DD` string `0099-01-01`
is not stored as the UTC instant it denotes — `parseInt` yields year 99
and `Date.UTC` maps years 0–99 to `1900 + y`, so the persisted
`taskDate` is the instant of 1999-01-01T00:00Z, not of
0099-01-01T00:00Z. -/
theorem postAdd_two_digit_year_shifted :
    (postAdd true "t4" y2kInput []).1 = [newTaskDoc "t4" y2kInput] ∧
    (newTaskDoc "t4" y2kInput).taskDate =
      some (specUTCInstant 1999 1 1 0 0) ∧
    (newTaskDoc "t4" y2kInput).taskDate ≠
      some (specUTCInstant 99 1 1 0 0) := by
  decide

/-- C2 (amended): for a well-formed `YYYY-MM-DD` date string whose year
component is at least 0100, and an optional `HH:MM` time (minutes
defaulting to 0 when omitted), create stores a `taskDate` equal to the
UTC instant of that calendar date and time — UTC midnight when no time
is given — and persists exactly that document. Year components 0000–0099
are instead shifted to `1900 + y` by `Date.UTC` (see the
counterexample). -/
theorem postAdd_valid_date_utc (freshId : String) (input : CreateInput)
    (store : List TaskDoc) (y m d hh mi : Int)
    (hy : parseIntAt (jsSplit input.taskDate '-') 0 = some y)
    (hm : parseIntAt (jsSplit input.taskDate '-') 1 = some m)
    (hd : parseIntAt (jsSplit input.taskDate '-') 2 = some d)
    (hyl : 100 ≤ y) (hyu : y ≤ 9999) (hml : 1 ≤ m) (hmu : m ≤ 12)
    (hdl : 1 ≤ d) (hdu : d ≤ daysInMonth y m)
    (hhl : 0 ≤ hh) (hhu : hh ≤ 23) (hmil : 0 ≤ mi) (hmiu : mi ≤ 59)
    (htime : (truthyStr input.taskTime = none ∧ hh = 0 ∧ mi = 0) ∨
      (∃ ts, truthyStr input.taskTime = some ts ∧
        parseIntAt (jsSplit ts ':') 0 = some hh ∧
        parseIntAtOrZero (jsSplit ts ':') 1 = some mi))
    (hact : input.activity ≠ "") (hcity : input.city ≠ "")
    (hctry : input.country ≠ "") :
    (newTaskDoc freshId input).taskDate =
      some (specUTCInstant y m d hh mi) ∧
    postAdd true freshId input store =
      (store ++ [newTaskDoc freshId input],
        .created (newTaskDoc freshId input)) := by
  have hspec := jsDateUTCVal_eq_spec y m d hh mi hyl hyu hml hmu hdl
    (le_trans hdu (daysInMonth_le y m)) hhl hhu hmil hmiu
  have hdate : parseTaskDate input.taskDate input.taskTime =
      some (specUTCInstant y m d hh mi) := by
    rcases htime with ⟨hnone, hh0, hmi0⟩ | ⟨ts, hts, hth, htm⟩
    · subst hh0
      subst hmi0
      simp only [parseTaskDate, hnone, hy, hm, hd, Option.map_some',
        jsDateUTC]
      exact hspec
    · simp only [parseTaskDate, hts, hy, hm, hd, hth, htm,
        Option.map_some', jsDateUTC]
      exact hspec
  refine ⟨hdate, ?_⟩
  have hv : mongooseValid (newTaskDoc freshId input) = true := by
    simp [mongooseValid, newTaskDoc, hact, hcity, hctry, hdate]
  simp [postAdd, hv]

/-- Witness for C2: creating a task dated `2024-03-15` at `14:30` stores
the UTC instant of 2024-03-15T14:30Z. -/
theorem postAdd_valid_date_utc_witness :
    (newTaskDoc "t3" validInput).taskDate =
      some (specUTCInstant 2024 3 15 14 30) ∧
    postAdd true "t3" validInput [] =
      ([newTaskDoc "t3" validInput],
        .created (newTaskDoc "t3" validInput)) := by
  have h := postAdd_valid_date_utc "t3" validInput [] 2024 3 15 14 30
    (by decide) (by decide) (by decide) (by decide) (by decide)
    (by decide) (by decide) (by decide) (by decide) (by decide)
    (by decide) (by decide) (by decide)
    (Or.inr ⟨"14:30", rfl, by decide, by decide⟩)
    (by decide) (by decide) (by decide)
  exact h

end TaskWeather
